import Mathlib

/-!
Verification development for the PortScanner_CN repository (src/main.rs).

The program is shallowly embedded: network I/O (local-IP lookup, HTTP fetch
of the external address, TCP bind and connect) is modelled by an explicit
environment of oracles, and each Rust function becomes a pure Lean function
over that environment.  Traced variants additionally return the list of
socket operations the code performs, so that claims about "which address is
bound" or "how many connection attempts are made" can be stated directly.
-/

set_option autoImplicit false

namespace PortScanner

/-- Model of Rust `std::net::IpAddr` (an IPv4 or IPv6 address). -/
inductive IpAddr where
  | v4 (a b c d : Nat)
  | v6 (segs : List Nat)
deriving DecidableEq, Repr

/-- The wildcard address `"0.0.0.0"` that `test_inbound_port` falls back to. -/
def wildcardAddr : IpAddr := IpAddr.v4 0 0 0 0

/-- The fixed outbound probe target `208.67.222.222` (OpenDNS) hard-coded in
`test_outbound_port`. -/
def opendnsAddr : IpAddr := IpAddr.v4 208 67 222 222

/-- Rust struct `PortInfo { port: u16, service: String, category: String }`. -/
structure PortInfo where
  port : Nat
  service : String
  category : String
deriving DecidableEq, Repr

/-- Rust `PortInfo::new`. -/
def PortInfo.new (port : Nat) (service category : String) : PortInfo :=
  ⟨port, service, category⟩

/-- Rust struct `ScanResult { inbound: bool, outbound: bool }`. -/
structure ScanResult where
  inbound : Bool
  outbound : Bool
deriving DecidableEq, Repr

/-- Rust `get_common_ports()`: the fixed, ordered port catalog. -/
def get_common_ports : List PortInfo :=
  [ PortInfo.new 80 "HTTP" "Web",
    PortInfo.new 443 "HTTPS" "Web",
    PortInfo.new 8080 "HTTP-ALT" "Web",
    PortInfo.new 8443 "HTTPS-ALT" "Web",
    PortInfo.new 25 "SMTP" "Mail",
    PortInfo.new 465 "SMTPS" "Mail",
    PortInfo.new 587 "Submission" "Mail",
    PortInfo.new 110 "POP3" "Mail",
    PortInfo.new 995 "POP3S" "Mail",
    PortInfo.new 143 "IMAP" "Mail",
    PortInfo.new 993 "IMAPS" "Mail",
    PortInfo.new 3306 "MySQL" "Database",
    PortInfo.new 5432 "PostgreSQL" "Database",
    PortInfo.new 27017 "MongoDB" "Database",
    PortInfo.new 6379 "Redis" "Database",
    PortInfo.new 22 "SSH" "Remote",
    PortInfo.new 3389 "RDP" "Remote",
    PortInfo.new 5900 "VNC" "Remote",
    PortInfo.new 21 "FTP" "File",
    PortInfo.new 69 "TFTP" "File",
    PortInfo.new 115 "SFTP" "File",
    PortInfo.new 2375 "Docker" "Container",
    PortInfo.new 2376 "Docker-TLS" "Container",
    PortInfo.new 6443 "Kubernetes" "Container",
    PortInfo.new 53 "DNS" "Other",
    PortInfo.new 123 "NTP" "Other",
    PortInfo.new 161 "SNMP" "Other",
    PortInfo.new 389 "LDAP" "Other",
    PortInfo.new 445 "SMB" "Other",
    PortInfo.new 548 "AFP" "Other",
    PortInfo.new 12345 "NetBus" "Other",
    PortInfo.new 31337 "Back Orifice" "Other",
    PortInfo.new 6667 "IRC" "Other",
    PortInfo.new 6697 "IRC-TLS" "Other",
    PortInfo.new 8080 "Proxy" "Other",
    PortInfo.new 8443 "Proxy-SSL" "Other",
    PortInfo.new 9050 "Tor" "Other",
    PortInfo.new 9150 "Tor-SSL" "Other",
    PortInfo.new 9999 "Urchin" "Other",
    PortInfo.new 10000 "Webmin" "Other",
    PortInfo.new 11211 "Memcached" "Other" ]

/-- Error kinds with which `TcpListener::bind` can fail. -/
inductive BindError where
  | permissionDenied
  | addrInUse
  | invalidAddr
  | other
deriving DecidableEq, Repr

/-- Outcome of the 1-second-bounded `socket.connect` in `test_outbound_port`:
either the connect succeeds within the timeout, or it fails (refused /
unreachable), or the timeout expires first. -/
inductive ConnectOutcome where
  | success
  | refused
  | unreachable
  | timedOut
deriving DecidableEq, Repr

/-- One `TcpListener::bind((addr, port))` call performed by the code. -/
structure BindAttempt where
  addr : IpAddr
  port : Nat
deriving DecidableEq, Repr

/-- One `socket.connect(addr:port)` call performed by the code, with its
timeout bound in seconds. -/
structure ConnectAttempt where
  addr : IpAddr
  port : Nat
  timeoutSecs : Nat
deriving DecidableEq, Repr

/-- Environment of OS / network oracles consumed by the scan engine:
the behaviour of `str::parse::<IpAddr>`, of `TcpListener::bind`
(`none` = bind succeeded), of `TcpSocket::new_v4()`, and of the timed
`socket.connect`. -/
structure ScanEnv where
  parseIp : String → Option IpAddr
  bindRes : IpAddr → Nat → Option BindError
  socketV4Ok : Bool
  connect : IpAddr → Nat → ConnectOutcome

/-- Traced embedding of Rust `test_inbound_port`: returns the boolean result
together with the bind calls made.  `ext` is the current content of the
`EXTERNAL_IP` once-cell. -/
def test_inbound_port_t (env : ScanEnv) (ext : Option String) (port : Nat) :
    Bool × List BindAttempt :=
  match ext with
  | some ip =>
    match env.parseIp ip with
    | some addr => ((env.bindRes addr port).isNone, [⟨addr, port⟩])
    | none => ((env.bindRes wildcardAddr port).isNone, [⟨wildcardAddr, port⟩])
  | none => ((env.bindRes wildcardAddr port).isNone, [⟨wildcardAddr, port⟩])

/-- Rust `test_inbound_port` (result only). -/
def test_inbound_port (env : ScanEnv) (ext : Option String) (port : Nat) : Bool :=
  (test_inbound_port_t env ext port).1

/-- Traced embedding of Rust `test_outbound_port`: if the IPv4 socket is
created, one connect attempt is made to `208.67.222.222:port` under a
1-second timeout; if socket creation fails the function returns `false`
without connecting. -/
def test_outbound_port_t (env : ScanEnv) (port : Nat) :
    Bool × List ConnectAttempt :=
  if env.socketV4Ok then
    (match env.connect opendnsAddr port with
     | ConnectOutcome.success => true
     | _ => false,
     [⟨opendnsAddr, port, 1⟩])
  else
    (false, [])

/-- Rust `test_outbound_port` (result only). -/
def test_outbound_port (env : ScanEnv) (port : Nat) : Bool :=
  (test_outbound_port_t env port).1

/-- Traced embedding of Rust `scan_port`: runs both sub-tests on the port
number and packages the two booleans, also returning both traces. -/
def scan_port_t (env : ScanEnv) (ext : Option String) (port : Nat) :
    ScanResult × List BindAttempt × List ConnectAttempt :=
  let i := test_inbound_port_t env ext port
  let o := test_outbound_port_t env port
  (⟨i.1, o.1⟩, i.2, o.2)

/-- Rust `scan_port` (result only). -/
def scan_port (env : ScanEnv) (ext : Option String) (port : Nat) : ScanResult :=
  (scan_port_t env ext port).1

/-- Model of `HashMap::insert` on an association list: if the key is present
its value is replaced, otherwise the pair is appended. -/
def hmInsert (m : List (PortInfo × ScanResult)) (k : PortInfo) (v : ScanResult) :
    List (PortInfo × ScanResult) :=
  if m.any (fun p => p.1 == k) then
    m.map (fun p => if p.1 == k then (k, v) else p)
  else
    m ++ [(k, v)]

/-- Model of `HashMap::get`. -/
def hmGet (m : List (PortInfo × ScanResult)) (k : PortInfo) : Option ScanResult :=
  (m.find? (fun p => p.1 == k)).map Prod.snd

/-- The scan loop of Rust `perform_scan`, generalised over the catalog it
iterates: for each entry, `scan_port` is called on the entry's port and the
result inserted into the map keyed by the whole `PortInfo`. -/
def perform_scan_on (env : ScanEnv) (ext : Option String) (ports : List PortInfo) :
    List (PortInfo × ScanResult) :=
  ports.foldl (fun m e => hmInsert m e (scan_port env ext e.port)) []

/-- Rust `perform_scan`: the scan loop applied to `get_common_ports()`. -/
def perform_scan (env : ScanEnv) (ext : Option String) :
    List (PortInfo × ScanResult) :=
  perform_scan_on env ext get_common_ports

/-- The grouping performed by Rust `display_results`: it iterates the
`HashSet` of categories in some order `catOrder`, and for each category
prints the result-map entries (in map-iteration order `entries`) whose
category matches.  Both orders are iteration orders of Rust hash
collections seeded by `RandomState`, so they are parameters here. -/
def display_results_groups (catOrder : List String)
    (entries : List (PortInfo × ScanResult)) :
    List (String × List (PortInfo × ScanResult)) :=
  catOrder.map (fun c => (c, entries.filter (fun pr => pr.1.category == c)))

/-- Outcome of the external-address query in `show_network_info`:
`reqwest::get("https://api.ipify.org").await` itself can fail (`getErr`,
carrying the reqwest error), or the response arrives but `.text().await`
fails (`textErr`), or the body is read successfully (`fetched`). -/
inductive FetchOutcome where
  | getErr (msg : String)
  | textErr
  | fetched (ip : String)
deriving DecidableEq, Repr

/-- Environment for the network-context resolver: the result of
`local_ip_address::local_ip()` and the outcome of the external-address
fetch. -/
structure ResolveEnv where
  localIp : Option IpAddr
  fetch : FetchOutcome

/-- Messages `show_network_info` prints, kept as events so that warnings can
be distinguished from errors. -/
inductive NetMsg where
  | localIpMsg (a : IpAddr)
  | localIpFailed
  | externalIpMsg (s : String)
  | externalFailed
  | setOnceWarning
deriving DecidableEq, Repr

/-- Model of `tokio::sync::OnceCell::set` on the `EXTERNAL_IP` static:
returns the new cell content and whether the set succeeded (a second set
fails and leaves the first value intact). -/
def onceCellSet (cell : Option String) (v : String) : Option String × Bool :=
  match cell with
  | none => (some v, true)
  | some w => (some w, false)

/-- Embedding of Rust `show_network_info`.  `cell` is the current content of
`EXTERNAL_IP`.  On success it returns the new cell content and the printed
messages; note that a failure of the HTTP GET itself is propagated as an
error by the `?` operator, while a failure of `.text()` is handled in the
`Err(_)` match arm. -/
def show_network_info (env : ResolveEnv) (cell : Option String) :
    Except String (Option String × List NetMsg) :=
  let localMsg :=
    match env.localIp with
    | some a => NetMsg.localIpMsg a
    | none => NetMsg.localIpFailed
  match env.fetch with
  | FetchOutcome.getErr msg => Except.error msg
  | FetchOutcome.textErr =>
      Except.ok (cell, [localMsg, NetMsg.externalFailed])
  | FetchOutcome.fetched ip =>
      let s := onceCellSet cell ip
      if s.2 then
        Except.ok (s.1, [localMsg, NetMsg.externalIpMsg ip])
      else
        Except.ok (s.1, [localMsg, NetMsg.externalIpMsg ip, NetMsg.setOnceWarning])

/-- Embedding of the effectful part of Rust `main` up to the scan: it runs
`show_network_info` (propagating its error with `?`, in which case
`perform_scan` is never reached) and otherwise performs the scan with the
resulting `EXTERNAL_IP` content. -/
def mainRun (renv : ResolveEnv) (senv : ScanEnv) (cell : Option String) :
    Except String (List (PortInfo × ScanResult)) :=
  match show_network_info renv cell with
  | Except.error e => Except.error e
  | Except.ok (cell2, _) => Except.ok (perform_scan senv cell2)

/-- Modelled from the spec (claim C2 wording): the bind-address selection
that the spec describes — "the resolved external address if present and
parses as a valid IP literal, otherwise the local address, otherwise the
wildcard address".  Stated as a second definition to compare against the
source's `test_inbound_port`, which has no local-address tier. -/
def chooseBindAddrClaimed (parse : String → Option IpAddr)
    (ext : Option String) (localAddr : Option IpAddr) : IpAddr :=
  match ext with
  | some s =>
    match parse s with
    | some a => a
    | none => match localAddr with
              | some l => l
              | none => wildcardAddr
  | none => match localAddr with
            | some l => l
            | none => wildcardAddr

/-- Concrete parse oracle used in witnesses: recognises the single literal
`"1.2.3.4"`. -/
def parseA : String → Option IpAddr :=
  fun s => if s = "1.2.3.4" then some (IpAddr.v4 1 2 3 4) else none

/-- Concrete environment: every bind succeeds, the socket is created, every
connect succeeds. -/
def envA : ScanEnv :=
  ⟨parseA, fun _ _ => none, true, fun _ _ => ConnectOutcome.success⟩

/-- Concrete environment in which `TcpSocket::new_v4()` fails. -/
def envB : ScanEnv :=
  ⟨parseA, fun _ _ => none, false, fun _ _ => ConnectOutcome.success⟩

/-- Concrete environment: binds to privileged ports (< 1024) fail with a
permission error, and every connect attempt times out. -/
def envPerm : ScanEnv :=
  ⟨parseA,
   fun _ p => if p < 1024 then some BindError.permissionDenied else none,
   true,
   fun _ _ => ConnectOutcome.timedOut⟩

/-- Concrete two-entry result set used in witnesses: one Web entry and one
Other entry. -/
def entriesW : List (PortInfo × ScanResult) :=
  [(PortInfo.new 80 "HTTP" "Web", ⟨true, false⟩),
   (PortInfo.new 53 "DNS" "Other", ⟨false, false⟩)]

section Lemmas

/-- Inserting under a fresh key appends the pair. -/
theorem hmInsert_fresh (m : List (PortInfo × ScanResult)) (k : PortInfo)
    (v : ScanResult) (h : ∀ p ∈ m, p.1 ≠ k) :
    hmInsert m k v = m ++ [(k, v)] := by
  unfold hmInsert
  rw [if_neg]
  simp only [List.any_eq_true, beq_iff_eq, not_exists]
  intro p hpc
  exact h p hpc.1 hpc.2

/-- The scan loop over a duplicate-free catalog whose entries are fresh for
the accumulator just appends one scanned pair per entry, in order. -/
theorem scan_foldl_eq (env : ScanEnv) (ext : Option String) :
    ∀ (l : List PortInfo) (m : List (PortInfo × ScanResult)),
      l.Nodup → (∀ e ∈ l, ∀ p ∈ m, p.1 ≠ e) →
      l.foldl (fun m e => hmInsert m e (scan_port env ext e.port)) m
        = m ++ l.map (fun e => (e, scan_port env ext e.port))
  | [], m, _, _ => by simp
  | e :: rest, m, hnd, hfresh => by
    have hfr : ∀ p ∈ m, p.1 ≠ e := hfresh e (List.mem_cons_self e rest)
    have hnd' := hnd
    rw [List.nodup_cons] at hnd'
    have step : hmInsert m e (scan_port env ext e.port)
        = m ++ [(e, scan_port env ext e.port)] := hmInsert_fresh m e _ hfr
    have hfresh' : ∀ x ∈ rest, ∀ p ∈ m ++ [(e, scan_port env ext e.port)], p.1 ≠ x := by
      intro x hx p hp
      rcases List.mem_append.mp hp with hpm | hpe
      · exact hfresh x (List.mem_cons_of_mem e hx) p hpm
      · have hpe' : p = (e, scan_port env ext e.port) := by simpa using hpe
        subst hpe'
        intro hcontra
        have hex : e = x := hcontra
        subst hex
        exact hnd'.1 hx
    calc (e :: rest).foldl (fun m x => hmInsert m x (scan_port env ext x.port)) m
        = rest.foldl (fun m x => hmInsert m x (scan_port env ext x.port))
            (hmInsert m e (scan_port env ext e.port)) := rfl
      _ = (m ++ [(e, scan_port env ext e.port)])
            ++ rest.map (fun x => (x, scan_port env ext x.port)) := by
            rw [step]
            exact scan_foldl_eq env ext rest _ hnd'.2 hfresh'
      _ = m ++ (e :: rest).map (fun x => (x, scan_port env ext x.port)) := by
            simp

/-- On a duplicate-free catalog the scan loop produces exactly the list of
entries paired with their scan results. -/
theorem perform_scan_on_eq (env : ScanEnv) (ext : Option String)
    (l : List PortInfo) (hnd : l.Nodup) :
    perform_scan_on env ext l = l.map (fun e => (e, scan_port env ext e.port)) := by
  have := scan_foldl_eq env ext l [] hnd (by intro e _ p hp; cases hp)
  simpa [perform_scan_on] using this

/-- Lookup in an entry-keyed map built from a list of entries. -/
theorem hmGet_map (f : PortInfo → ScanResult) :
    ∀ (l : List PortInfo) (k : PortInfo), k ∈ l →
      hmGet (l.map (fun e => (e, f e))) k = some (f k)
  | [], k, hk => by cases hk
  | e :: rest, k, hk => by
    by_cases he : e = k
    · subst he
      simp only [hmGet, List.map_cons]
      rw [List.find?_cons_of_pos _ (by simp)]
      rfl
    · have hk' : k ∈ rest := by
        rcases List.mem_cons.mp hk with h | h
        · exact absurd h.symm he
        · exact h
      have ih := hmGet_map f rest k hk'
      simp only [hmGet, List.map_cons] at ih ⊢
      rw [List.find?_cons_of_neg _ (by simp [he])]
      exact ih

/-- Splitting a filter over a category and a disjoint set of categories. -/
theorem filter_category_split (c : String) (cs : List String) (h : c ∉ cs) :
    ∀ entries : List (PortInfo × ScanResult),
      (entries.filter (fun pr => pr.1.category == c) ++
        entries.filter (fun pr => decide (pr.1.category ∈ cs))).Perm
      (entries.filter (fun pr => pr.1.category == c || decide (pr.1.category ∈ cs)))
  | [] => by simp
  | e :: rest => by
    by_cases hc : e.1.category = c
    · have hnm : ¬ (e.1.category ∈ cs) := by rw [hc]; exact h
      rw [List.filter_cons, List.filter_cons, List.filter_cons,
        if_pos (by simp [hc]), if_neg (by simp [hnm]), if_pos (by simp [hc]),
        List.cons_append]
      exact (filter_category_split c cs h rest).cons e
    · by_cases hm : e.1.category ∈ cs
      · rw [List.filter_cons, List.filter_cons, List.filter_cons,
          if_neg (by simp [hc]), if_pos (by simp [hm]), if_pos (by simp [hm])]
        exact List.perm_middle.trans ((filter_category_split c cs h rest).cons e)
      · rw [List.filter_cons, List.filter_cons, List.filter_cons,
          if_neg (by simp [hc]), if_neg (by simp [hm]), if_neg (by simp [hc, hm])]
        exact filter_category_split c cs h rest

/-- The concatenation of the per-category filters over a duplicate-free
category list is a permutation of the entries whose category lies in the
list. -/
theorem groups_join_perm_filter :
    ∀ (cs : List String), cs.Nodup →
      ∀ entries : List (PortInfo × ScanResult),
        ((cs.map (fun c => entries.filter (fun pr => pr.1.category == c))).flatten).Perm
          (entries.filter (fun pr => decide (pr.1.category ∈ cs)))
  | [], _, entries => by simp
  | c :: cs, hnd, entries => by
    rw [List.nodup_cons] at hnd
    have ih := groups_join_perm_filter cs hnd.2 entries
    have step := filter_category_split c cs hnd.1 entries
    have congr1 :
        entries.filter (fun pr => pr.1.category == c || decide (pr.1.category ∈ cs))
          = entries.filter (fun pr => decide (pr.1.category ∈ c :: cs)) := by
      apply List.filter_congr
      intro pr _
      by_cases h1 : pr.1.category = c
      · simp [h1]
      · by_cases h2 : pr.1.category ∈ cs <;> simp [h1, h2]
    have e1 : ((c :: cs).map (fun c => entries.filter (fun pr => pr.1.category == c))).flatten
        = entries.filter (fun pr => pr.1.category == c)
            ++ (cs.map (fun c => entries.filter (fun pr => pr.1.category == c))).flatten := by
      simp
    rw [e1, ← congr1]
    exact (ih.append_left _).trans step

/-- When the category list is duplicate-free and covers every entry, the
flattened groups are a permutation of the entries. -/
theorem display_groups_flatten_perm (catOrder : List String)
    (entries : List (PortInfo × ScanResult)) (hnd : catOrder.Nodup)
    (hcov : ∀ pr ∈ entries, pr.1.category ∈ catOrder) :
    ((display_results_groups catOrder entries).map Prod.snd).flatten.Perm entries := by
  have h1 : (display_results_groups catOrder entries).map Prod.snd
      = catOrder.map (fun c => entries.filter (fun pr => pr.1.category == c)) := by
    simp [display_results_groups, List.map_map]
  rw [h1]
  have h2 := groups_join_perm_filter catOrder hnd entries
  have h3 : entries.filter (fun pr => decide (pr.1.category ∈ catOrder)) = entries := by
    rw [List.filter_eq_self]
    intro pr hpr
    simpa using hcov pr hpr
  rw [h3] at h2
  exact h2

/-- The group keys produced by the aggregator are exactly the category
iteration order. -/
theorem display_groups_keys (catOrder : List String)
    (entries : List (PortInfo × ScanResult)) :
    (display_results_groups catOrder entries).map Prod.fst = catOrder := by
  simp only [display_results_groups, List.map_map]
  exact List.map_id catOrder

end Lemmas

/-- Claim C10: the fixed catalog's entries are pairwise distinct as
(port, service, category) triples even though the port numbers 8080 and
8443 each appear in two entries, and consequently, for every environment,
the entry-keyed result map holds exactly one outcome per catalog row with
none coalesced. -/
theorem c10_catalog_entries_distinct :
    get_common_ports.Nodup ∧
    (get_common_ports.map PortInfo.port).count 8080 = 2 ∧
    (get_common_ports.map PortInfo.port).count 8443 = 2 ∧
    ∀ (env : ScanEnv) (ext : Option String),
      (perform_scan_on env ext get_common_ports).map Prod.fst = get_common_ports := by
  refine ⟨by decide, by decide, by decide, ?_⟩
  intro env ext
  rw [perform_scan_on_eq env ext get_common_ports (by decide)]
  simp only [List.map_map]
  exact List.map_id get_common_ports

/-- Claim C4, counterexample: a catalog that repeats an identical entry is
coalesced by the entry-keyed `HashMap`, so the result-set size falls short
of the catalog length — the claim is false for such a catalog. -/
theorem c4_duplicate_entry_coalesces :
    (perform_scan_on envA none
        [PortInfo.new 80 "HTTP" "Web", PortInfo.new 80 "HTTP" "Web"]).length
      ≠ [PortInfo.new 80 "HTTP" "Web", PortInfo.new 80 "HTTP" "Web"].length := by
  decide

/-- Claim C4, amended: for every catalog whose entries are pairwise
distinct as (port, service, category) triples — as the program's fixed
catalog is — the scan produces a result set whose size equals the catalog
length, with exactly one outcome per entry (entries sharing a port number
included) and no entry skipped or duplicated. -/
theorem c4_scan_one_outcome_per_entry (env : ScanEnv) (ext : Option String)
    (l : List PortInfo) (hnd : l.Nodup) :
    (perform_scan_on env ext l).length = l.length ∧
    (perform_scan_on env ext l).map Prod.fst = l := by
  rw [perform_scan_on_eq env ext l hnd]
  refine ⟨by simp, ?_⟩
  simp only [List.map_map]
  exact List.map_id l

/-- Witness for C4 at the program's catalog. -/
theorem c4_scan_one_outcome_per_entry_witness :
    (perform_scan_on envA none get_common_ports).length = get_common_ports.length ∧
    (perform_scan_on envA none get_common_ports).map Prod.fst = get_common_ports :=
  c4_scan_one_outcome_per_entry envA none get_common_ports (by decide)

/-- Claim C9: a port's outcome is computed from the port number and the
external-address cell alone — service and category have no influence — so
two catalog entries with the same port number receive identical probe
traces and identical outcomes in the result map. -/
theorem c9_outcome_depends_only_on_port (env : ScanEnv) (ext : Option String)
    (l : List PortInfo) (e₁ e₂ : PortInfo) (hnd : l.Nodup)
    (h₁ : e₁ ∈ l) (h₂ : e₂ ∈ l) (hp : e₁.port = e₂.port) :
    scan_port_t env ext e₁.port = scan_port_t env ext e₂.port ∧
    hmGet (perform_scan_on env ext l) e₁ = hmGet (perform_scan_on env ext l) e₂ := by
  refine ⟨by rw [hp], ?_⟩
  rw [perform_scan_on_eq env ext l hnd,
    hmGet_map (fun e => scan_port env ext e.port) l e₁ h₁,
    hmGet_map (fun e => scan_port env ext e.port) l e₂ h₂, hp]

/-- Witness for C9 at the two port-8080 entries of the program's catalog. -/
theorem c9_outcome_depends_only_on_port_witness :
    scan_port_t envA none (PortInfo.new 8080 "HTTP-ALT" "Web").port
      = scan_port_t envA none (PortInfo.new 8080 "Proxy" "Other").port ∧
    hmGet (perform_scan_on envA none get_common_ports)
        (PortInfo.new 8080 "HTTP-ALT" "Web")
      = hmGet (perform_scan_on envA none get_common_ports)
        (PortInfo.new 8080 "Proxy" "Other") :=
  c9_outcome_depends_only_on_port envA none get_common_ports
    (PortInfo.new 8080 "HTTP-ALT" "Web") (PortInfo.new 8080 "Proxy" "Other")
    (by decide) (by decide) (by decide) rfl

/-- Claim C5: when the category iteration order is duplicate-free and
coincides with the categories present in the result set (as the `HashSet`
of categories guarantees), the grouping is a partition: the flattened
groups are a permutation of the result set (nothing dropped, nothing
duplicated), group sizes sum to the size of the result set, and every
distinct category present appears as exactly one group key. -/
theorem c5_grouping_is_partition (catOrder : List String)
    (entries : List (PortInfo × ScanResult)) (hnd : catOrder.Nodup)
    (hcov : ∀ pr ∈ entries, pr.1.category ∈ catOrder)
    (hmem : ∀ c ∈ catOrder, c ∈ entries.map (fun pr => pr.1.category)) :
    ((display_results_groups catOrder entries).map Prod.snd).flatten.Perm entries ∧
    ((display_results_groups catOrder entries).map (fun g => g.2.length)).sum
      = entries.length ∧
    ((display_results_groups catOrder entries).map Prod.fst).Nodup ∧
    (∀ c, c ∈ (display_results_groups catOrder entries).map Prod.fst
       ↔ c ∈ entries.map (fun pr => pr.1.category)) := by
  have hperm := display_groups_flatten_perm catOrder entries hnd hcov
  have hkeys := display_groups_keys catOrder entries
  refine ⟨hperm, ?_, ?_, ?_⟩
  · have hlen := hperm.length_eq
    rw [List.length_flatten, List.map_map] at hlen
    exact hlen
  · rw [hkeys]
    exact hnd
  · intro c
    rw [hkeys]
    constructor
    · exact hmem c
    · intro hcm
      rcases List.mem_map.mp hcm with ⟨pr, hpr, hcat⟩
      exact hcat ▸ hcov pr hpr

/-- Witness for C5 at a concrete two-category result set. -/
theorem c5_grouping_is_partition_witness :
    ((display_results_groups ["Web", "Other"] entriesW).map Prod.snd).flatten.Perm entriesW ∧
    ((display_results_groups ["Web", "Other"] entriesW).map (fun g => g.2.length)).sum
      = entriesW.length ∧
    ((display_results_groups ["Web", "Other"] entriesW).map Prod.fst).Nodup ∧
    (∀ c, c ∈ (display_results_groups ["Web", "Other"] entriesW).map Prod.fst
       ↔ c ∈ entriesW.map (fun pr => pr.1.category)) :=
  c5_grouping_is_partition ["Web", "Other"] entriesW (by decide) (by decide) (by decide)

/-- Claim C3, counterexample: the category groups are emitted in the
iteration order of a `HashSet` (seeded by `RandomState`), so two runs over
the same fixed result set may observe two different admissible iteration
orders of the same category set — here `["Web", "Other"]` versus
`["Other", "Web"]`, both duplicate-free permutations of the same two
categories — and the grouping then produces different orderings. -/
theorem c3_ordering_not_run_stable :
    (["Web", "Other"] : List String).Perm ["Other", "Web"] ∧
    (["Web", "Other"] : List String).Nodup ∧
    (["Other", "Web"] : List String).Nodup ∧
    display_results_groups ["Web", "Other"] entriesW
      ≠ display_results_groups ["Other", "Web"] entriesW := by
  refine ⟨by decide, by decide, by decide, by decide⟩

/-- Claim C3, amended: the output ordering is a function of the hash
iteration orders, not of the catalog: the groups appear exactly in the
category-set iteration order, and within each category the pairs appear as
a subsequence of the result-map iteration order; stability across runs is
not guaranteed because those iteration orders are not. -/
theorem c3_grouping_follows_iteration_order (catOrder : List String)
    (entries : List (PortInfo × ScanResult)) :
    (display_results_groups catOrder entries).map Prod.fst = catOrder ∧
    ∀ g ∈ display_results_groups catOrder entries, g.2.Sublist entries := by
  refine ⟨display_groups_keys catOrder entries, ?_⟩
  intro g hg
  rcases List.mem_map.mp hg with ⟨c, _, hceq⟩
  rw [← hceq]
  exact List.filter_sublist entries

/-- Witness for C3 at a concrete iteration order. -/
theorem c3_grouping_follows_iteration_order_witness :
    ((display_results_groups ["Web"] entriesW).map Prod.fst = ["Web"]) ∧
    (("Web", entriesW.filter (fun pr => pr.1.category == "Web"))
      : String × List (PortInfo × ScanResult)).2.Sublist entriesW :=
  ⟨(c3_grouping_follows_iteration_order ["Web"] entriesW).1,
   (c3_grouping_follows_iteration_order ["Web"] entriesW).2
     ("Web", entriesW.filter (fun pr => pr.1.category == "Web")) (by decide)⟩

/-- Claim C2, counterexample: with the external address unresolved and the
local address resolved, the code binds the wildcard address directly — the
claimed middle tier (bind to the resolved local address) does not exist in
`test_inbound_port`, which never receives the local address at all. -/
theorem c2_local_address_never_used :
    (test_inbound_port_t envA none 80).2 = [⟨wildcardAddr, 80⟩] ∧
    chooseBindAddrClaimed envA.parseIp none (some (IpAddr.v4 192 168 1 7))
      = IpAddr.v4 192 168 1 7 ∧
    wildcardAddr ≠ IpAddr.v4 192 168 1 7 :=
  ⟨rfl, rfl, by decide⟩

/-- Claim C2, amended: the inbound test binds to the resolved external
address when it is present and parses as a valid IP literal; in every other
case (external address unset, or set but unparsable) it binds to the
wildcard address `0.0.0.0` — the resolved local address is never used. -/
theorem c2_inbound_bind_address (env : ScanEnv) (ext : Option String) (port : Nat) :
    (∀ s a, ext = some s → env.parseIp s = some a →
      (test_inbound_port_t env ext port).2 = [⟨a, port⟩] ∧
      test_inbound_port env ext port = (env.bindRes a port).isNone) ∧
    (ext.bind env.parseIp = none →
      (test_inbound_port_t env ext port).2 = [⟨wildcardAddr, port⟩] ∧
      test_inbound_port env ext port = (env.bindRes wildcardAddr port).isNone) := by
  constructor
  · intro s a hs ha
    subst hs
    simp [test_inbound_port_t, test_inbound_port, ha]
  · intro hb
    cases ext with
    | none => simp [test_inbound_port_t, test_inbound_port]
    | some s =>
      have hps : env.parseIp s = none := by simpa using hb
      simp [test_inbound_port_t, test_inbound_port, hps]

/-- Witness for C2 on both branches. -/
theorem c2_inbound_bind_address_witness :
    ((test_inbound_port_t envA (some "1.2.3.4") 80).2 = [⟨IpAddr.v4 1 2 3 4, 80⟩]) ∧
    ((test_inbound_port_t envA (some "not-an-ip") 80).2 = [⟨wildcardAddr, 80⟩]) :=
  ⟨((c2_inbound_bind_address envA (some "1.2.3.4") 80).1 "1.2.3.4"
      (IpAddr.v4 1 2 3 4) rfl (by decide)).1,
   ((c2_inbound_bind_address envA (some "not-an-ip") 80).2 (by decide)).1⟩

/-- Claim C7, counterexample: when `TcpSocket::new_v4()` fails, the code
returns `false` without making any connection attempt, so "exactly one
connection attempt per port" is false in that environment. -/
theorem c7_no_attempt_when_socket_creation_fails :
    ¬ ((test_outbound_port_t envB 80).2.length = 1) ∧
    test_outbound_port envB 80 = false := by
  refine ⟨by decide, by decide⟩

/-- Claim C7, amended: the outbound test makes at most one connection
attempt — exactly one when the IPv4 socket is created, none when socket
creation fails — and any attempt targets the fixed host 208.67.222.222 on
the probed port under a 1-second timeout; the result is `true` exactly when
the socket was created and the single connect succeeded, with no retry. -/
theorem c7_outbound_single_timed_attempt (env : ScanEnv) (port : Nat) :
    (test_outbound_port_t env port).2.length ≤ 1 ∧
    (∀ a ∈ (test_outbound_port_t env port).2,
        a.addr = opendnsAddr ∧ a.port = port ∧ a.timeoutSecs = 1) ∧
    (env.socketV4Ok = true →
        (test_outbound_port_t env port).2 = [⟨opendnsAddr, port, 1⟩]) ∧
    (test_outbound_port env port = true ↔
        env.socketV4Ok = true ∧ env.connect opendnsAddr port = ConnectOutcome.success) := by
  cases hs : env.socketV4Ok with
  | false =>
    refine ⟨?_, ?_, ?_, ?_⟩ <;> simp [test_outbound_port_t, test_outbound_port, hs]
  | true =>
    cases hc : env.connect opendnsAddr port <;>
      refine ⟨?_, ?_, ?_, ?_⟩ <;>
        simp_all [test_outbound_port_t, test_outbound_port, hs, hc]

/-- Witness for C7 in an environment with a working socket. -/
theorem c7_outbound_single_timed_attempt_witness :
    (test_outbound_port_t envA 443).2 = [⟨opendnsAddr, 443, 1⟩] ∧
    (test_outbound_port envA 443 = true ↔
        envA.socketV4Ok = true ∧ envA.connect opendnsAddr 443 = ConnectOutcome.success) :=
  ⟨(c7_outbound_single_timed_attempt envA 443).2.2.1 rfl,
   (c7_outbound_single_timed_attempt envA 443).2.2.2⟩

/-- Claim C8: neither sub-test propagates an error — both are total
boolean functions of the environment — and every failure mode collapses to
`false`: any bind error (permission denied, address in use, invalid
address, other) on the bind the inbound test performs yields
`inboundOpen = false`, and socket-creation failure as well as any
non-success connect outcome (refused, unreachable, timeout) yields
`outboundOpen = false`. -/
theorem c8_failures_collapse_to_false (env : ScanEnv) (ext : Option String)
    (port : Nat) :
    (∀ err : BindError, ∀ a ∈ (test_inbound_port_t env ext port).2,
        env.bindRes a.addr a.port = some err → test_inbound_port env ext port = false) ∧
    (env.socketV4Ok = false → test_outbound_port env port = false) ∧
    (∀ o : ConnectOutcome, o ≠ ConnectOutcome.success →
        env.connect opendnsAddr port = o → test_outbound_port env port = false) := by
  refine ⟨?_, ?_, ?_⟩
  · intro err a ha herr
    cases ext with
    | none =>
      simp only [test_inbound_port_t, List.mem_singleton] at ha
      subst ha
      simp only [test_inbound_port_t, test_inbound_port] at herr ⊢
      rw [herr]
      rfl
    | some s =>
      cases hps : env.parseIp s with
      | none =>
        simp only [test_inbound_port_t, hps, List.mem_singleton] at ha
        subst ha
        simp only [test_inbound_port_t, test_inbound_port, hps] at herr ⊢
        rw [herr]
        rfl
      | some addr =>
        simp only [test_inbound_port_t, hps, List.mem_singleton] at ha
        subst ha
        simp only [test_inbound_port_t, test_inbound_port, hps] at herr ⊢
        rw [herr]
        rfl
  · intro hs
    simp [test_outbound_port, test_outbound_port_t, hs]
  · intro o ho hc
    cases hs : env.socketV4Ok with
    | false => simp [test_outbound_port, test_outbound_port_t, hs]
    | true =>
      cases o with
      | success => exact absurd rfl ho
      | refused => simp [test_outbound_port, test_outbound_port_t, hs, hc]
      | unreachable => simp [test_outbound_port, test_outbound_port_t, hs, hc]
      | timedOut => simp [test_outbound_port, test_outbound_port_t, hs, hc]

/-- Witness for C8: a permission-denied bind on privileged port 80, a
failed socket creation, and a timed-out connect all collapse to `false`. -/
theorem c8_failures_collapse_to_false_witness :
    test_inbound_port envPerm none 80 = false ∧
    test_outbound_port envB 80 = false ∧
    test_outbound_port envPerm 80 = false :=
  ⟨(c8_failures_collapse_to_false envPerm none 80).1 BindError.permissionDenied
      ⟨wildcardAddr, 80⟩ (by decide) (by decide),
   (c8_failures_collapse_to_false envB none 80).2.1 rfl,
   (c8_failures_collapse_to_false envPerm none 80).2.2 ConnectOutcome.timedOut
      (by decide) rfl⟩

/-- Claim C6: the `EXTERNAL_IP` once-cell has set-once semantics — when the
cell already holds a value and a second resolution fetches a new address,
`show_network_info` completes without error, the first value stays intact,
and the conflict is reported as a warning message. -/
theorem c6_external_ip_set_once (env : ResolveEnv) (cell : Option String)
    (w ip : String) (hcell : cell = some w)
    (hf : env.fetch = FetchOutcome.fetched ip) :
    ∃ msgs : List NetMsg,
      show_network_info env cell = Except.ok (some w, msgs) ∧
      NetMsg.setOnceWarning ∈ msgs := by
  subst hcell
  refine ⟨[(match env.localIp with
            | some a => NetMsg.localIpMsg a
            | none => NetMsg.localIpFailed),
           NetMsg.externalIpMsg ip, NetMsg.setOnceWarning], ?_, by simp⟩
  simp [show_network_info, hf, onceCellSet]

/-- Witness for C6 at a concrete pre-set cell. -/
theorem c6_external_ip_set_once_witness :
    ∃ msgs : List NetMsg,
      show_network_info ⟨some (IpAddr.v4 10 0 0 2), FetchOutcome.fetched "5.6.7.8"⟩
          (some "1.2.3.4")
        = Except.ok (some "1.2.3.4", msgs) ∧
      NetMsg.setOnceWarning ∈ msgs :=
  c6_external_ip_set_once ⟨some (IpAddr.v4 10 0 0 2), FetchOutcome.fetched "5.6.7.8"⟩
    (some "1.2.3.4") "1.2.3.4" "5.6.7.8" rfl rfl

/-- Claim C1 (code bug): when the HTTP GET to the address-echo service
itself fails, the `?` operator in `show_network_info` propagates the error,
`main` returns it, and the scan phase is never reached — the failure does
not degrade to an unset external-address field as the claim states; only a
failure of reading the response body does. -/
theorem c1_get_error_aborts_before_scan :
    mainRun ⟨some (IpAddr.v4 192 168 1 7), FetchOutcome.getErr "connection failed"⟩
        envA none
      = Except.error "connection failed" ∧
    show_network_info
        ⟨some (IpAddr.v4 192 168 1 7), FetchOutcome.getErr "connection failed"⟩ none
      = Except.error "connection failed" ∧
    mainRun ⟨some (IpAddr.v4 192 168 1 7), FetchOutcome.textErr⟩ envA none
      = Except.ok (perform_scan envA none) :=
  ⟨rfl, rfl, rfl⟩

end PortScanner
